import Mathlib

/-!
Verification of the SVD document-to-model builder in `cmdebug/svd.py`
(PyCortexMDebug).  The Python classes `SmartDict`, `SVDFile`,
`SVDPeripheral`, `SVDRegisterCluster`, `SVDPeripheralRegister` and
`SVDPeripheralRegisterField`, together with the module-level functions
`add_register` and `add_cluster`, are shallowly embedded as executable Lean
definitions; XML elements are modelled as records of the `findtext` results
the code reads, and Python exceptions as an `Except` monad whose error type
distinguishes `SVDNonFatalError` from the built-in exception classes
(`KeyError`, `AssertionError`, ...), since the catch boundaries in the code
only ever catch `SVDNonFatalError`.
-/

namespace Svd

/-! ## Python string and integer primitives

The Lean core versions of `splitOn`, `toLower`, `startsWith` and
`endsWith` are opaque to the kernel, so the corresponding Python string
operations are modelled by the following executable list-based
definitions with the same semantics. -/

/-- Python `str.lower()` (the SVD names are ASCII). -/
def strLower (s : String) : String :=
  String.mk (s.data.map Char.toLower)

/-- Whether `p` is a prefix of `l`. -/
def listIsPfx {α : Type} [DecidableEq α] : List α → List α → Bool
  | [], _ => true
  | _ :: _, [] => false
  | p :: ps, c :: cs => p = c && listIsPfx ps cs

/-- Python `a.startswith(b)`. -/
def strStartsW (a b : String) : Bool :=
  listIsPfx b.data a.data

/-- Python `a.endswith(b)`. -/
def strEndsW (a b : String) : Bool :=
  listIsPfx b.data.reverse a.data.reverse

/-- Split worker: structural in the fuel, which the wrapper seeds with the
input length so the `0` case is never reached on a non-empty list. -/
def splitGo (sep : List Char) : Nat → List Char → List Char → List (List Char)
  | _, acc, [] => [acc.reverse]
  | 0, acc, l => [acc.reverse ++ l]
  | fuel + 1, acc, c :: t =>
    if listIsPfx sep (c :: t) then
      acc.reverse :: splitGo sep fuel [] ((c :: t).drop sep.length)
    else
      splitGo sep fuel (c :: acc) t

/-- Python `s.split(sep)` for a non-empty separator (also the behaviour of
`str.splitOn` in Lean): non-overlapping occurrences, left to right, with
`"".split(sep) = [""]`. -/
def strSplitOn (s sep : String) : List String :=
  (splitGo sep.data s.data.length [] s.data).map String.mk


/-- Value of `c` as a digit in base `base` (`int` accepts `0`-`9`, `a`-`f`
depending on the base; the inputs are lowercased before use). -/
def digitVal (base : Nat) (c : Char) : Option Nat :=
  let v :=
    if '0' ≤ c ∧ c ≤ '9' then some (c.toNat - '0'.toNat)
    else if 'a' ≤ c ∧ c ≤ 'f' then some (c.toNat - 'a'.toNat + 10)
    else none
  match v with
  | some n => if n < base then some n else none
  | none => none

/-- Interpret a non-empty digit string in the given base, as Python `int`
does once the base prefix has been removed; `none` models `ValueError`. -/
def natOfDigits (base : Nat) : List Char → Option Nat
  | [] => none
  | cs => go cs 0
where
  go : List Char → Nat → Option Nat
  | [], acc => some acc
  | c :: t, acc =>
    match digitVal base c with
    | some d => go t (acc * base + d)
    | none => none

/-- Python `int(s, 0)`: honours `0x`/`0b`/`0o` prefixes, otherwise decimal.
The SVD inputs carry no sign, underscores or surrounding whitespace, so
those `int` features are not modelled.  `none` models `ValueError`. -/
def pyIntBase0 (s : String) : Option Int :=
  match (strLower s).data with
  | '0' :: 'x' :: rest => (natOfDigits 16 rest).map Int.ofNat
  | '0' :: 'b' :: rest => (natOfDigits 2 rest).map Int.ofNat
  | '0' :: 'o' :: rest => (natOfDigits 8 rest).map Int.ofNat
  | cs => (natOfDigits 10 cs).map Int.ofNat

/-- Python `int(s)` (base 10). -/
def pyInt10 (s : String) : Option Int :=
  (natOfDigits 10 s.data).map Int.ofNat

/-- Python `int(s, 2)`, used for `#`-prefixed binary enum literals. -/
def pyInt2 (s : String) : Option Int :=
  (natOfDigits 2 s.data).map Int.ofNat

/-- Python `tmpl % tok` for a single string argument: the SVD name
templates use exactly one `%s` substitution point; a template with zero or
more than one substitution point raises `TypeError`, modelled as `none`. -/
def pyPctFormat (tmpl : String) (tok : String) : Option String :=
  match strSplitOn tmpl "%s" with
  | [a, b] => some (a ++ tok ++ b)
  | _ => none

/-- Python `s.strip()` (ASCII whitespace). -/
def pyStrip (s : String) : String :=
  String.mk (((s.data.dropWhile Char.isWhitespace).reverse.dropWhile
      Char.isWhitespace).reverse)

/-- Python truthiness of an `Optional[str]`: `None` and `""` are falsey. -/
def optTruthy : Option String → Bool
  | none => false
  | some s => !s.data.isEmpty

/-- Python `str(x)` on an `Optional[str]`: `str(None)` is `"None"`. -/
def pyStr : Option String → String
  | none => "None"
  | some s => s

/-! ## SmartDict

The container backing every name table: an insertion-ordered dict `od` plus
a dict `casemap` from lowercased keys to the original key.  Python dicts
keep insertion order and an assignment to an existing key overwrites the
value in place; `assocSet` mirrors that on association lists. -/

/-- Assignment `l[k] = v` with Python-dict semantics: overwrite in place if
the key exists, else append at the end. -/
def assocSet {κ β : Type} [DecidableEq κ] : List (κ × β) → κ → β → List (κ × β)
  | [], k, v => [(k, v)]
  | (k', v') :: t, k, v =>
    if k' = k then (k, v) :: t else (k', v') :: assocSet t k v

/-- Lookup `l[k]`: first (hence, with `assocSet`, unique) binding. -/
def assocFind {κ β : Type} [DecidableEq κ] : List (κ × β) → κ → Option β
  | [], _ => none
  | (k', v') :: t, k => if k' = k then some v' else assocFind t k

/-- Python `k in l` on a dict modelled as an association list. -/
def containsKey {κ β : Type} [DecidableEq κ] (l : List (κ × β)) (k : κ) : Bool :=
  (assocFind l k).isSome

structure SmartDict (α : Type) where
  od : List (String × α)
  casemap : List (String × String)
deriving Repr

def SmartDict.empty {α : Type} : SmartDict α := ⟨[], []⟩

/-- `SmartDict.__setitem__`: the duplicate and case-collision warnings go
to `stderr` and do not affect the stored state; both the `casemap` entry
(under the lowercased key) and the `od` entry are overwritten. -/
def SmartDict.setitem {α : Type} (d : SmartDict α) (k : String) (v : α) :
    SmartDict α :=
  { od := assocSet d.od k v, casemap := assocSet d.casemap (strLower k) k }

/-- The regex `^(.*?)([0-9]*)$` applied to `key.lower()`: the second group
is the maximal trailing run of decimal digits, the first group the rest. -/
def splitKey (k : String) : String × String :=
  let rev := (strLower k).data.reverse
  (String.mk (rev.dropWhile Char.isDigit).reverse,
   String.mk (rev.takeWhile Char.isDigit).reverse)

/-- `SmartDict.prefix_match_iter`: yields, in `casemap` insertion order,
the original key of every entry whose lowercased key starts with the
alphabetic head of `key` and ends with its trailing digit run. -/
def SmartDict.pfxMatchIter {α : Type} (d : SmartDict α) (k : String) :
    List String :=
  let p := splitKey k
  (d.casemap.filter (fun e => strStartsW e.1 p.1 && strEndsW e.1 p.2)).map
    Prod.snd

/-- `SmartDict.prefix_match`: first yielded match, or `None`. -/
def SmartDict.pfxMatch {α : Type} (d : SmartDict α) (k : String) :
    Option String :=
  (d.pfxMatchIter k).head?

/-- `SmartDict.__getitem__`: exact hit, else case-insensitive hit through
`casemap`, else first prefix match; `none` models the `KeyError` raised by
`od[None]` (or by a missing `od` key). -/
def SmartDict.getitem {α : Type} (d : SmartDict α) (k : String) : Option α :=
  if containsKey d.od k then assocFind d.od k
  else if containsKey d.casemap (strLower k) then
    match assocFind d.casemap (strLower k) with
    | some odKey => assocFind d.od odKey
    | none => none
  else
    match d.pfxMatch k with
    | some odKey => assocFind d.od odKey
    | none => none

/-- `SmartDict.is_ambiguous`: note that the middle test is
`key not in self.casemap` on the key as given, not on `key.lower()`. -/
def SmartDict.is_ambiguous {α : Type} (d : SmartDict α) (k : String) : Bool :=
  !containsKey d.od k && !containsKey d.casemap k &&
    decide (1 < (d.pfxMatchIter k).length)

/-- `SmartDict.__contains__`: the third disjunct is the truthiness of the
`prefix_match` result (`None` and `""` are falsey). -/
def SmartDict.contains {α : Type} (d : SmartDict α) (k : String) : Bool :=
  containsKey d.od k || containsKey d.casemap (strLower k) ||
    (match d.pfxMatch k with
     | some s => !s.data.isEmpty
     | none => false)

/-! ## XML elements and Python exceptions

An element is modelled as the record of the `findtext` results and child
element lists the builder reads; `findtext` returns `None` for a missing
child, so every text is an `Option String`. -/

structure EnumValElem where
  value : Option String
  name : Option String
  description : Option String
deriving Repr

structure FieldElem where
  name : Option String
  description : Option String
  bitOffset : Option String
  bitWidth : Option String
  bitRange : Option String
  lsb : Option String
  msb : Option String
  access : Option String
  enumeratedValues : List EnumValElem
deriving Repr

structure RegisterElem where
  name : Option String
  dim : Option String
  dimIncrement : Option String
  dimIndex : Option String
  description : Option String
  access : Option String
  size : Option String
  addressOffset : Option String
  derivedFrom : Option String
  alternateGroup : Bool
  fields : List FieldElem
deriving Repr

/-- A cluster element; the document may nest `cluster` children inside it
(`clusters`), which `SVDRegisterCluster.__init__` never visits. -/
inductive ClusterElem : Type where
  | mk (name : Option String) (dim : Option String)
       (dimIncrement : Option String) (dimIndex : Option String)
       (addressOffset : Option String) (description : Option String)
       (registers : List RegisterElem) (clusters : List ClusterElem)
deriving Repr

def ClusterElem.name : ClusterElem → Option String
  | .mk n _ _ _ _ _ _ _ => n

def ClusterElem.dim : ClusterElem → Option String
  | .mk _ d _ _ _ _ _ _ => d

def ClusterElem.dimIncrement : ClusterElem → Option String
  | .mk _ _ d _ _ _ _ _ => d

def ClusterElem.dimIndex : ClusterElem → Option String
  | .mk _ _ _ d _ _ _ _ => d

def ClusterElem.addressOffset : ClusterElem → Option String
  | .mk _ _ _ _ a _ _ _ => a

def ClusterElem.description : ClusterElem → Option String
  | .mk _ _ _ _ _ d _ _ => d

def ClusterElem.registers : ClusterElem → List RegisterElem
  | .mk _ _ _ _ _ _ r _ => r

def ClusterElem.clusters : ClusterElem → List ClusterElem
  | .mk _ _ _ _ _ _ _ c => c

/-- Replace the nested `cluster` children of a cluster element. -/
def ClusterElem.setClusters (e : ClusterElem) (cs : List ClusterElem) :
    ClusterElem :=
  match e with
  | .mk n d di dx a ds r _ => .mk n d di dx a ds r cs

structure PeripheralElem where
  name : Option String
  baseAddress : Option String
  derivedFrom : Option String
  description : Option String
  registers : List RegisterElem
  clusters : List ClusterElem
deriving Repr

/-- Python exceptions the builder can raise.  `nonfatal` is
`SVDNonFatalError`; the others are built-in exception classes, which no
`except SVDNonFatalError` boundary catches. -/
inductive PyErr : Type where
  | nonfatal (msg : String)
  | assertionError (msg : String)
  | keyError
  | typeError
  | valueError
  | indexError
  | attributeError
deriving Repr, DecidableEq

/-- Lift an optional parse result, raising the given error on `none`. -/
def ofOpt {α : Type} (x : Option α) (e : PyErr) : Except PyErr α :=
  match x with
  | some v => .ok v
  | none => .error e

/-- Python `int(findtext(..), 0)`: `TypeError` when the text is missing,
`ValueError` when it does not parse. -/
def pyIntOfText (t : Option String) : Except PyErr Int :=
  match t with
  | none => .error .typeError
  | some s => ofOpt (pyIntBase0 s) .valueError

/-! ## Fields -/

structure SVDPeripheralRegisterField where
  name : Option String
  description : String
  offset : Int
  width : Int
  access : String
  enum : List (Int × String × String)
deriving Repr

/-- One iteration of the `enumeratedValues/enumeratedValue` loop: `value[0]`
raises `TypeError` on `None` and `IndexError` on `""`; a literal that fails
to parse (`ValueError`) is silently skipped (`none`). -/
def parseEnumVal (v : EnumValElem) :
    Except PyErr (Option (Int × String × String)) :=
  match v.value with
  | none => .error .typeError
  | some s =>
    match s.data with
    | [] => .error .indexError
    | c :: rest =>
      let idx := if c = '#' then pyInt2 (String.mk rest) else pyIntBase0 s
      .ok (idx.map fun i => (i, v.name.getD "", v.description.getD ""))

/-- `SVDPeripheralRegisterField.__init__`: tries, in order, explicit
`bitOffset`+`bitWidth`, a bracketed `bitRange` string, then `lsb`/`msb`
(asserting both are present), and then decodes the enumerated values. -/
def SVDPeripheralRegisterField.build (e : FieldElem) (parentAccess : String) :
    Except PyErr SVDPeripheralRegisterField := do
  let name := e.name
  let description := e.description.getD ""
  let ow ←
    if optTruthy e.bitOffset && optTruthy e.bitWidth then do
      let o ← ofOpt (e.bitOffset.bind pyInt10) .valueError
      let w ← ofOpt (e.bitWidth.bind pyInt10) .valueError
      pure (o, w)
    else if optTruthy e.bitRange then do
      let s := pyStrip (e.bitRange.getD "")
      let inner := String.mk ((s.data.drop 1).dropLast)
      let nums ← (strSplitOn inner ":").mapM
        (fun p => ofOpt (pyInt10 p) PyErr.valueError)
      match nums with
      | a :: b :: _ => pure (b, 1 + a - b)
      | _ => .error .indexError
    else
      if optTruthy e.lsb && optTruthy e.msb then do
        let lsb ← ofOpt (e.lsb.bind pyInt10) .valueError
        let msb ← ofOpt (e.msb.bind pyInt10) .valueError
        pure (lsb, 1 + msb - lsb)
      else .error (.assertionError "Range not found for field")
  let access := e.access.getD parentAccess
  let enum ← e.enumeratedValues.foldlM
    (fun (acc : List (Int × String × String)) v => do
      match (← parseEnumVal v) with
      | some (i, nm, ds) => pure (assocSet acc i (nm, ds))
      | none => pure acc)
    []
  pure { name, description, offset := ow.1, width := ow.2, access, enum }

/-! ## Registers -/

structure SVDPeripheralRegister where
  parent_base_address : Int
  name : Option String
  description : Option String
  access : String
  size : Int
  offset : Int
  fields : SmartDict SVDPeripheralRegisterField
deriving Repr

/-- `SVDPeripheralRegister.address`. -/
def SVDPeripheralRegister.address (r : SVDPeripheralRegister) : Int :=
  r.parent_base_address + r.offset

/-- `SVDPeripheralRegister.readable`. -/
def SVDPeripheralRegister.readable (r : SVDPeripheralRegister) : Bool :=
  r.access = "read-only" || r.access = "read-write" ||
    r.access = "read-writeOnce"

/-- `SVDPeripheralRegister.writable`. -/
def SVDPeripheralRegister.writable (r : SVDPeripheralRegister) : Bool :=
  r.access = "write-only" || r.access = "read-write" ||
    r.access = "writeOnce" || r.access = "read-writeOnce"

/-- `SVDPeripheralRegister.__init__`.  The parent (peripheral or cluster)
enters only through its `base_address` and its `registers` table (the
latter for `derivedFrom` lookup), so those are the parameters.  In the
derived branch the final `refactor_parent(parent)` re-stamps
`parent_base_address` with the same `parent.base_address`. -/
def SVDPeripheralRegister.build (e : RegisterElem) (parentBase : Int)
    (parentRegs : SmartDict SVDPeripheralRegister) :
    Except PyErr SVDPeripheralRegister := do
  let name := e.name
  let description := e.description
  let access := e.access.getD "read-write"
  let size ← ofOpt (pyIntBase0 (e.size.getD "0x20")) .valueError
  let offset ← pyIntOfText e.addressOffset
  match e.derivedFrom with
  | some d =>
    match parentRegs.getitem d with
    | none => .error .keyError
    | some base =>
      let name := if name.isNone then base.name else name
      -- faithful to the source: when `description` is `None` the code
      -- assigns `self.name = base_register.description`
      let name := if description.isNone then base.description else name
      pure { parent_base_address := parentBase, name, description, access,
             size, offset, fields := base.fields }
  | none =>
    let description := some (description.getD "")
    let fields ← e.fields.foldlM
      (fun (tbl : SmartDict SVDPeripheralRegisterField) f => do
        let fld ← SVDPeripheralRegisterField.build f access
        match f.name with
        | none => .error .attributeError   -- None.lower() in __setitem__
        | some k => pure (tbl.setitem k fld))
      SmartDict.empty
    pure { parent_base_address := parentBase, name, description, access,
           size, offset, fields }

/-- `add_register`: in the `dim` branch nothing is caught, each expanded
copy gets the substituted name, the (possibly substituted) description and
`reg.offset += offset`; in the plain branch `SVDNonFatalError` is caught
and the register is only inserted when its name is not already `in` the
table (SmartDict `__contains__`, which includes prefix matching). -/
def add_register (parentBase : Int)
    (regs : SmartDict SVDPeripheralRegister) (node : RegisterElem) :
    Except PyErr (SmartDict SVDPeripheralRegister) := do
  let name_str := node.name
  let dim_str := node.dim
  if optTruthy dim_str then do
    let dim ← ofOpt (dim_str.bind pyIntBase0) .valueError
    let incr ← pyIntOfText node.dimIncrement
    let defaultIdx := String.intercalate ","
      ((List.range dim.toNat).map toString)
    let dim_index := node.dimIndex.getD defaultIdx
    let indices := strSplitOn dim_index ","
    let st ← indices.foldlM
      (fun (st : SmartDict SVDPeripheralRegister × Int) i => do
        let name ←
          match name_str with
          | none => .error PyErr.typeError          -- None % i
          | some t => ofOpt (pyPctFormat t i) PyErr.typeError
        let desc :=
          match node.description with
          | none => none
          | some t =>
            match pyPctFormat t i with
            | some d2 => some d2
            | none => some t          -- TypeError caught, keep the base text
        let reg ← SVDPeripheralRegister.build node parentBase st.1
        let reg := { reg with name := some name, description := desc,
                              offset := reg.offset + st.2 }
        pure (st.1.setitem name reg, st.2 + incr))
      (regs, 0)
    pure st.1
  else
    match SVDPeripheralRegister.build node parentBase regs with
    | .error (.nonfatal _) => pure regs     -- printed, build continues
    | .error e => .error e
    | .ok reg =>
      match name_str with
      | none => .error .attributeError      -- None.lower() in __contains__
      | some ns =>
        if !(regs.contains ns) then pure (regs.setitem ns reg)
        else pure regs                      -- alternateGroup note only

/-! ## Clusters -/

/-- `SVDRegisterCluster`: recursive because its `clusters` attribute is
itself a table of clusters (which the constructor always leaves empty). -/
inductive SVDRegisterCluster : Type where
  | mk (parent_base_address : Int) (parent_name : Option String)
       (address_offset : Int) (base_address : Int)
       (description : String) (name : Option String)
       (registers : SmartDict SVDPeripheralRegister)
       (clusters : SmartDict SVDRegisterCluster)

def SVDRegisterCluster.parent_base_address : SVDRegisterCluster → Int
  | .mk p _ _ _ _ _ _ _ => p

def SVDRegisterCluster.parent_name : SVDRegisterCluster → Option String
  | .mk _ n _ _ _ _ _ _ => n

def SVDRegisterCluster.address_offset : SVDRegisterCluster → Int
  | .mk _ _ a _ _ _ _ _ => a

def SVDRegisterCluster.base_address : SVDRegisterCluster → Int
  | .mk _ _ _ b _ _ _ _ => b

def SVDRegisterCluster.description : SVDRegisterCluster → String
  | .mk _ _ _ _ d _ _ _ => d

def SVDRegisterCluster.name : SVDRegisterCluster → Option String
  | .mk _ _ _ _ _ n _ _ => n

def SVDRegisterCluster.registers :
    SVDRegisterCluster → SmartDict SVDPeripheralRegister
  | .mk _ _ _ _ _ _ r _ => r

def SVDRegisterCluster.clusters :
    SVDRegisterCluster → SmartDict SVDRegisterCluster
  | .mk _ _ _ _ _ _ _ c => c

/-- `SVDRegisterCluster.__init__`: reads `addressOffset`, precomputes
`base_address`, then adds only the element's `register` children — the
`iterfind("register")` loop never visits nested `cluster` children, and
`self.clusters` stays the empty table it is initialised to. -/
def SVDRegisterCluster.build (e : ClusterElem) (parentBase : Int)
    (parentName : Option String) : Except PyErr SVDRegisterCluster := do
  let address_offset ← pyIntOfText e.addressOffset
  let base_address := address_offset + parentBase
  let description := e.description.getD ""
  let name := e.name
  let registers ← e.registers.foldlM
    (fun tbl r => add_register base_address tbl r) SmartDict.empty
  pure (.mk parentBase parentName address_offset base_address description
    name registers SmartDict.empty)

/-- The three mutations applied to each expanded copy in `add_cluster`'s
`dim` branch: `cluster.name = name`, `cluster.address_offset += offset`,
`cluster.base_address += offset`.  Nothing else — in particular the
registers already built inside the cluster are untouched. -/
def SVDRegisterCluster.shift (c : SVDRegisterCluster) (nm : String)
    (off : Int) : SVDRegisterCluster :=
  match c with
  | .mk pba pn ao ba d _ rs cls => .mk pba pn (ao + off) (ba + off) d
      (some nm) rs cls

/-- `SVDRegisterCluster.refactor_parent`: restamps the parent linkage,
recomputes `base_address`, and re-stamps each owned register's
`parent_base_address` (nested clusters are not visited). -/
def SVDRegisterCluster.refactor_parent (c : SVDRegisterCluster)
    (parentBase : Int) (parentName : Option String) : SVDRegisterCluster :=
  match c with
  | .mk _ _ ao _ d n rs cls =>
    let ba := parentBase + ao
    let rs' : SmartDict SVDPeripheralRegister :=
      { od := rs.od.map fun p => (p.1, { p.2 with parent_base_address := ba }),
        casemap := rs.casemap }
    .mk parentBase parentName ao ba d n rs' cls

/-- `add_cluster`: `dim` branch uncaught, each copy shifted by the running
offset; plain branch catches `SVDNonFatalError` only. -/
def add_cluster (parentBase : Int) (parentName : Option String)
    (cls : SmartDict SVDRegisterCluster) (node : ClusterElem) :
    Except PyErr (SmartDict SVDRegisterCluster) := do
  let name_str := node.name
  let dim_str := node.dim
  if optTruthy dim_str then do
    let dim ← ofOpt (dim_str.bind pyIntBase0) .valueError
    let incr ← pyIntOfText node.dimIncrement
    let defaultIdx := String.intercalate ","
      ((List.range dim.toNat).map toString)
    let dim_index := node.dimIndex.getD defaultIdx
    let indices := strSplitOn dim_index ","
    let st ← indices.foldlM
      (fun (st : SmartDict SVDRegisterCluster × Int) i => do
        let name ←
          match name_str with
          | none => .error PyErr.typeError
          | some t => ofOpt (pyPctFormat t i) PyErr.typeError
        let cluster ← SVDRegisterCluster.build node parentBase parentName
        let cluster := cluster.shift name st.2
        pure (st.1.setitem name cluster, st.2 + incr))
      (cls, 0)
    pure st.1
  else
    match SVDRegisterCluster.build node parentBase parentName with
    | .error (.nonfatal _) => pure cls
    | .error e => .error e
    | .ok c =>
      match name_str with
      | none => .error .attributeError    -- None key in __setitem__
      | some ns => pure (cls.setitem ns c)

/-! ## Peripherals and the file -/

structure SVDPeripheral where
  parent_base_address : Int
  name : Option String
  description : Option String
  base_address : Int
  registers : SmartDict SVDPeripheralRegister
  clusters : SmartDict SVDRegisterCluster

/-- `SVDPeripheral.refactor_parent` (with `parent.base_address = 0`, the
only value an `SVDFile` ever has): re-stamps every owned register with this
peripheral's `base_address` and refactors every owned cluster. -/
def SVDPeripheral.refactorOwn (p : SVDPeripheral) (fileBase : Int) :
    SVDPeripheral :=
  { p with
    parent_base_address := fileBase,
    registers :=
      { od := p.registers.od.map fun q =>
          (q.1, { q.2 with parent_base_address := p.base_address }),
        casemap := p.registers.casemap },
    clusters :=
      { od := p.clusters.od.map fun q =>
          (q.1, q.2.refactor_parent p.base_address p.name),
        casemap := p.clusters.casemap } }

/-- `SVDPeripheral.__init__`: raises the non-fatal error on a missing
`baseAddress`; with `derivedFrom` it looks the target up through the
SmartDict (falling back to case-insensitive and prefix matching), copies
its register and cluster tables (`pickle` round-trip: the copies are
independent values) and rebases them; otherwise it builds registers then
clusters from the element's own children. -/
def SVDPeripheral.build (e : PeripheralElem) (fileBase : Int)
    (filePeriphs : SmartDict SVDPeripheral) : Except PyErr SVDPeripheral := do
  let name := e.name
  match e.baseAddress with
  | none => .error (.nonfatal "Periph without base address")
  | some bs =>
    let base_address ← ofOpt (pyIntBase0 bs) .valueError
    match e.derivedFrom with
    | some d =>
      match filePeriphs.getitem d with
      | none => .error .keyError
      | some basep =>
        let description :=
          match e.description with
          | some s => some s
          | none => basep.description
        let p : SVDPeripheral :=
          { parent_base_address := fileBase, name, description, base_address,
            registers := basep.registers, clusters := basep.clusters }
        pure (p.refactorOwn fileBase)
    | none =>
      let description := e.description
      let registers ← e.registers.foldlM
        (fun tbl r => add_register base_address tbl r) SmartDict.empty
      let clusters ← e.clusters.foldlM
        (fun tbl c => add_cluster base_address name tbl c) SmartDict.empty
      pure { parent_base_address := fileBase, name, description,
             base_address, registers, clusters }

structure SVDFile where
  peripherals : SmartDict SVDPeripheral
  base_address : Int

/-- One iteration of the `SVDFile.__init__` peripheral loop: build the
peripheral, catch `SVDNonFatalError` (printing it and dropping the
peripheral), store successful builds under `str(findtext("name"))`. -/
def SVDFile.step (acc : SmartDict SVDPeripheral) (p : PeripheralElem) :
    Except PyErr (SmartDict SVDPeripheral) :=
  match SVDPeripheral.build p 0 acc with
  | .ok sp => .ok (acc.setitem (pyStr p.name) sp)
  | .error (.nonfatal _) => .ok acc
  | .error e => .error e

/-- `SVDFile.__init__`: `base_address = 0`, then the document's peripheral
elements in order. -/
def SVDFile.build (ps : List PeripheralElem) : Except PyErr SVDFile := do
  let tbl ← ps.foldlM SVDFile.step SmartDict.empty
  pure { peripherals := tbl, base_address := 0 }

/-! ## General lemmas about the association-list dict operations -/

theorem assocFind_assocSet_self {κ β : Type} [DecidableEq κ]
    (l : List (κ × β)) (k : κ) (v : β) :
    assocFind (assocSet l k v) k = some v := by
  induction l with
  | nil => simp [assocSet, assocFind]
  | cons hd t ih =>
    obtain ⟨k', v'⟩ := hd
    by_cases hk : k' = k
    · simp [assocSet, assocFind, hk]
    · simp [assocSet, assocFind, hk, ih]

theorem mem_assocSet {κ β : Type} [DecidableEq κ]
    {l : List (κ × β)} {k : κ} {v : β} {x : κ × β}
    (hx : x ∈ assocSet l k v) : x = (k, v) ∨ x ∈ l := by
  induction l with
  | nil => simpa [assocSet] using hx
  | cons hd t ih =>
    obtain ⟨k', v'⟩ := hd
    by_cases hk : k' = k
    · simp only [assocSet, if_pos hk] at hx
      rcases List.mem_cons.mp hx with h | h
      · exact Or.inl h
      · exact Or.inr (List.mem_cons_of_mem _ h)
    · simp only [assocSet, if_neg hk] at hx
      rcases List.mem_cons.mp hx with h | h
      · exact Or.inr (h ▸ List.mem_cons_self _ _)
      · rcases ih h with h' | h'
        · exact Or.inl h'
        · exact Or.inr (List.mem_cons_of_mem _ h')

theorem assocFind_mem {κ β : Type} [DecidableEq κ]
    {l : List (κ × β)} {k : κ} {v : β}
    (h : assocFind l k = some v) : (k, v) ∈ l := by
  induction l with
  | nil => simp [assocFind] at h
  | cons hd t ih =>
    obtain ⟨k', v'⟩ := hd
    by_cases hk : k' = k
    · simp only [assocFind, if_pos hk] at h
      cases h
      exact hk ▸ List.mem_cons_self _ _
    · simp only [assocFind, if_neg hk] at h
      exact List.mem_cons_of_mem _ (ih h)

theorem except_error_bind {E α β : Type} (e : E) (f : α → Except E β) :
    (Except.error e >>= f) = Except.error e := rfl

theorem except_ok_bind {E α β : Type} (a : α) (f : α → Except E β) :
    (Except.ok a >>= f) = f a := rfl

/-- Invariant preservation along a `foldlM` in the `Except` monad: this is
the shape of every construction loop in the builder. -/
theorem foldlM_except_ind {E σ α : Type} (g : σ → α → Except E σ)
    (P : σ → Prop) (hg : ∀ s a s', P s → g s a = .ok s' → P s') :
    ∀ (l : List α) (s s' : σ), P s → l.foldlM g s = .ok s' → P s' := by
  intro l
  induction l with
  | nil =>
    intro s s' hs h
    simp only [List.foldlM_nil] at h
    cases h
    exact hs
  | cons a t ih =>
    intro s s' hs h
    simp only [List.foldlM_cons] at h
    cases hga : g s a with
    | error e =>
      rw [hga, except_error_bind] at h
      exact absurd h (by intro hh; cases hh)
    | ok s₁ =>
      rw [hga, except_ok_bind] at h
      exact ih s₁ s' (hg s a s₁ hs hga) h

/-- Splitting a `foldlM` in the `Except` monad at an append. -/
theorem foldlM_except_append {E σ α : Type} (g : σ → α → Except E σ)
    (l₁ l₂ : List α) (s : σ) :
    (l₁ ++ l₂).foldlM g s =
      (l₁.foldlM g s) >>= (fun x => l₂.foldlM g x) := by
  induction l₁ generalizing s with
  | nil => rfl
  | cons a t ih =>
    simp only [List.cons_append, List.foldlM_cons]
    cases hga : g s a with
    | error e => simp only [except_error_bind]
    | ok s₁ => simp only [except_ok_bind, ih]

/-! ## C1: register addresses under dim-expanded clusters -/

/-- Register element `R` at `addressOffset` 0x4, used inside the cluster
array of the C1 document. -/
def c1reg : RegisterElem :=
  { name := some "R", dim := none, dimIncrement := none, dimIndex := none,
    description := none, access := none, size := none,
    addressOffset := some "0x4", derivedFrom := none,
    alternateGroup := false, fields := [] }

/-- Cluster array `C%s` with `dim=2`, `dimIncrement=0x100`,
`addressOffset` 0x10, holding register `R`. -/
def c1cluster : ClusterElem :=
  .mk (some "C%s") (some "2") (some "0x100") none (some "0x10") none
    [c1reg] []

/-- Peripheral `P` at base 0x40000000 holding the cluster array. -/
def c1periph : PeripheralElem :=
  { name := some "P", baseAddress := some "0x40000000", derivedFrom := none,
    description := none, registers := [], clusters := [c1cluster] }

/-- C1: the claimed address invariant fails on the code for registers
inside dim-expanded clusters.  In the second expanded copy `C1` the
cluster's `address_offset` has been shifted to 0x110, but the register it
owns keeps the `parent_base_address` stamped before the shift, so
`address()` returns 0x40000014 while the claimed
`base_address + Σ cluster offsets + offset` is 0x40000114. -/
theorem dim_cluster_register_address_stale :
    ((SVDFile.build [c1periph]).toOption.bind fun f =>
      (f.peripherals.getitem "P").bind fun p =>
      (p.clusters.getitem "C1").bind fun c =>
      (c.registers.getitem "R").map fun (r : SVDPeripheralRegister) =>
        (r.address, p.base_address + c.address_offset + r.offset)) =
      some (0x40000014, 0x40000114) ∧ (0x40000014 : Int) ≠ 0x40000114 := by
  exact ⟨rfl, by decide⟩

/-! ## C2: dim expansion of a register array -/

/-- Register element `CH%s` with `dim=3`, `dimIncrement=4`, no explicit
`dimIndex`, base `addressOffset` 0x10. -/
def c2reg : RegisterElem :=
  { name := some "CH%s", dim := some "3", dimIncrement := some "4",
    dimIndex := none, description := none, access := none, size := none,
    addressOffset := some "0x10", derivedFrom := none,
    alternateGroup := false, fields := [] }

/-- C2: expanding `CH%s` with `dim=3`, `dimIncrement=4` and base offset
0x10 inserts exactly the three independent entries `CH0`, `CH1`, `CH2`
at offsets 0x10, 0x14, 0x18 into the parent's table. -/
theorem dim_register_expansion_example :
    (add_register 0 SmartDict.empty c2reg).toOption.map
      (fun t => t.od.map fun p => (p.1, p.2.offset)) =
      some [("CH0", 0x10), ("CH1", 0x14), ("CH2", 0x18)] := rfl

/-! ## C5: the three bit-range encodings -/

/-- Field with only a bracketed `bitRange` string. -/
def c5brField : FieldElem :=
  { name := some "F", description := none, bitOffset := none,
    bitWidth := none, bitRange := some "[7:4]", lsb := none, msb := none,
    access := none, enumeratedValues := [] }

/-- Field with only separate `lsb`/`msb` elements. -/
def c5lmField : FieldElem :=
  { c5brField with bitRange := none, lsb := some "4", msb := some "7" }

/-- Field carrying all three encodings: the explicit pair must win. -/
def c5allField : FieldElem :=
  { c5brField with bitOffset := some "3", bitWidth := some "2",
                   lsb := some "0", msb := some "1" }

/-- Field carrying `bitRange` and `lsb`/`msb`: the bracketed string must
win over the separate elements. -/
def c5brlmField : FieldElem :=
  { c5brField with lsb := some "0", msb := some "1" }

/-- C5: `[7:4]` parses to offset 4, width 4, identical to `lsb=4`,
`msb=7`; and the encodings are tried in order (explicit pair first, then
the bracketed string, then `lsb`/`msb`). -/
theorem bit_range_encodings_example :
    (SVDPeripheralRegisterField.build c5brField "read-write").toOption.map
        (fun f => (f.offset, f.width)) = some (4, 4) ∧
    (SVDPeripheralRegisterField.build c5lmField "read-write").toOption.map
        (fun f => (f.offset, f.width)) = some (4, 4) ∧
    (SVDPeripheralRegisterField.build c5allField "read-write").toOption.map
        (fun f => (f.offset, f.width)) = some (3, 2) ∧
    (SVDPeripheralRegisterField.build c5brlmField "read-write").toOption.map
        (fun f => (f.offset, f.width)) = some (4, 4) := by
  exact ⟨rfl, rfl, rfl, rfl⟩

/-! ## C3: duplicate and case-colliding inserts -/

/-- NameTable holding `"AA" ↦ 1` and then the case-colliding `"aA" ↦ 2`. -/
def c3dict : SmartDict Nat :=
  (SmartDict.empty.setitem "AA" 1).setitem "aA" 2

/-- C3 counterexample: after inserting `"AA" ↦ 1` and then the
case-colliding `"aA" ↦ 2`, a case-insensitive lookup of `"aa"` resolves
through the key registered last (`"aA"`, value 2), not through the first
(`"AA"`, value 1) as the claim states: `__setitem__` overwrites the
`casemap` entry on every insert. -/
theorem casemap_first_key_counterexample :
    c3dict.getitem "aa" = some 2 ∧ c3dict.getitem "aa" ≠ some 1 ∧
      assocFind c3dict.casemap "aa" = some "aA" := by
  refine ⟨rfl, by decide, rfl⟩

/-- C3 amended: inserting (under a duplicate or case-colliding key, or any
other) still stores the entry; exact lookup of the new key returns the new
value, and any case variant that is not an exact key of the result now
resolves through the newly registered key, because the `casemap` entry for
that lowercased name is overwritten on every insert. -/
theorem setitem_case_lookup_last_wins {α : Type} (d : SmartDict α)
    (k q : String) (v : α) (hq : strLower q = strLower k)
    (hex : assocFind (d.setitem k v).od q = none) :
    (d.setitem k v).getitem q = some v ∧
      (d.setitem k v).getitem k = some v := by
  have hk : assocFind (d.setitem k v).od k = some v :=
    assocFind_assocSet_self d.od k v
  have hcm : assocFind (d.setitem k v).casemap (strLower k) = some k :=
    assocFind_assocSet_self d.casemap (strLower k) k
  constructor
  · show (d.setitem k v).getitem q = some v
    unfold SmartDict.getitem
    rw [if_neg (by simp [containsKey, hex]),
        if_pos (by simp [containsKey, hq, hcm]), hq, hcm]
    exact hk
  · show (d.setitem k v).getitem k = some v
    unfold SmartDict.getitem
    rw [if_pos (by simp [containsKey, hk]), hk]

/-- Witness for the amended C3 at the concrete case-colliding insert. -/
theorem setitem_case_lookup_last_wins_witness :
    ((SmartDict.empty.setitem "AA" 1).setitem "aA" 2).getitem "aa" =
        some 2 ∧
      ((SmartDict.empty.setitem "AA" 1).setitem "aA" 2).getitem "aA" =
        some 2 :=
  setitem_case_lookup_last_wins (SmartDict.empty.setitem "AA" 1) "aA" "aa" 2
    (by decide) (by decide)

/-! ## C4: ambiguity of prefix lookups -/

/-- Ambiguity as the claim words it: the key is neither an exact hit nor a
case-insensitive hit (`key.lower()` being a `casemap` key, the test
`__getitem__` uses for its case-insensitive path), and more than one entry
prefix-matches.  For comparison with `is_ambiguous`, whose middle test is
`key not in self.casemap` on the unlowered key. -/
def claimedAmbiguous {α : Type} (d : SmartDict α) (k : String) : Bool :=
  !containsKey d.od k && !containsKey d.casemap (strLower k) &&
    decide (1 < (d.pfxMatchIter k).length)

/-- NameTable holding `"UART1" ↦ 1` and `"UART11" ↦ 2`. -/
def c4dict : SmartDict Nat :=
  (SmartDict.empty.setitem "UART1" 1).setitem "UART11" 2

/-- C4 counterexample: with `UART1` and `UART11` present, the key `Uart1`
is a case-insensitive hit (lookup resolves, unambiguously, to `UART1`),
yet `is_ambiguous` reports `true`, because its middle test checks the
unlowered key against the lowercase `casemap` keys.  The claimed
"neither exact nor case-insensitive hit" condition is false here, so the
claimed iff fails. -/
theorem is_ambiguous_case_hit_counterexample :
    c4dict.is_ambiguous "Uart1" = true ∧
      claimedAmbiguous c4dict "Uart1" = false ∧
      c4dict.getitem "Uart1" = some 1 ∧
      containsKey c4dict.casemap (strLower "Uart1") = true := by
  refine ⟨rfl, rfl, rfl, rfl⟩

/-- NameTable holding exactly `"UART1" ↦ 1` and `"UART2" ↦ 2`. -/
def c4dict' : SmartDict Nat :=
  (SmartDict.empty.setitem "UART1" 1).setitem "UART2" 2

/-- C4 amended: `is_ambiguous key` is true iff `key` is not an exact key,
`key` itself (unlowered) is not a `casemap` key, and more than one entry
prefix-matches it — a key that hits only case-insensitively can thus still
be reported ambiguous.  With exactly `UART1` and `UART2` inserted, `UART`
is ambiguous with exactly the two candidates `UART1`, `UART2` in insertion
order, exact lookup of `UART1` is unambiguous, and the ambiguous prefix
lookup of `UART` returns the first match in insertion order. -/
theorem is_ambiguous_characterisation {α : Type} (d : SmartDict α)
    (k : String) :
    (d.is_ambiguous k = true ↔
      containsKey d.od k = false ∧ containsKey d.casemap k = false ∧
        1 < (d.pfxMatchIter k).length) ∧
      c4dict'.is_ambiguous "UART" = true ∧
      c4dict'.pfxMatchIter "UART" = ["UART1", "UART2"] ∧
      c4dict'.is_ambiguous "UART1" = false ∧
      c4dict'.pfxMatch "UART" = some "UART1" ∧
      c4dict'.getitem "UART" = some 1 := by
  refine ⟨?_, rfl, rfl, rfl, rfl, rfl⟩
  unfold SmartDict.is_ambiguous
  simp [Bool.and_eq_true, Bool.not_eq_true', and_assoc]

/-! ## C6: a field with no bit-range encoding -/

/-- Field element carrying none of the three bit-range encodings. -/
def c6badField : FieldElem :=
  { name := some "F", description := none, bitOffset := none,
    bitWidth := none, bitRange := none, lsb := none, msb := none,
    access := none, enumeratedValues := [] }

/-- Register `R1` containing the malformed field. -/
def c6reg1 : RegisterElem :=
  { name := some "R1", dim := none, dimIncrement := none, dimIndex := none,
    description := none, access := none, size := none,
    addressOffset := some "0x4", derivedFrom := none,
    alternateGroup := false, fields := [c6badField] }

/-- Well-formed sibling register `R2`. -/
def c6reg2 : RegisterElem :=
  { c6reg1 with name := some "R2", addressOffset := some "0x8",
                fields := [] }

/-- Peripheral holding the malformed `R1` and the well-formed `R2`. -/
def c6periph : PeripheralElem :=
  { name := some "P", baseAddress := some "0x0", derivedFrom := none,
    description := none, registers := [c6reg1, c6reg2], clusters := [] }

/-- The same document with the field repaired (`bitRange` `[7:4]`). -/
def c6periphFixed : PeripheralElem :=
  { c6periph with registers :=
      [{ c6reg1 with fields := [{ c6badField with bitRange := some "[7:4]" }] },
       c6reg2] }

/-- C6 counterexample: a field with none of the three encodings fails the
`assert`, and the resulting `AssertionError` is not an `SVDNonFatalError`,
so no catch boundary stops it — the whole load fails, the sibling `R2`
does not survive, and no model is returned. -/
theorem missing_bit_range_aborts_load :
    SVDFile.build [c6periph] =
      .error (.assertionError "Range not found for field") := rfl

/-- C6 amended: the missing bit range is fatal to the entire document
load, not just to the field's register — the identical document loads with
both registers once the field carries an encoding, so it is exactly the
assertion failure that discards everything. -/
theorem missing_bit_range_fatal_granularity :
    SVDFile.build [c6periph] =
        .error (.assertionError "Range not found for field") ∧
      ((SVDFile.build [c6periphFixed]).toOption.bind fun f =>
        (f.peripherals.getitem "P").map fun (p : SVDPeripheral) =>
          p.registers.od.map Prod.fst) = some ["R1", "R2"] := by
  exact ⟨rfl, rfl⟩

/-! ## C7: a peripheral without a base address -/

/-- C7: in a two-peripheral document whose first element lacks
`baseAddress`, the first build raises the non-fatal error, which the
`SVDFile` loop catches and logs; the load succeeds and the model holds
exactly the second peripheral. -/
theorem missing_base_address_drops_peripheral
    (p1 p2 : PeripheralElem) (sp : SVDPeripheral)
    (h1 : p1.baseAddress = none)
    (h2 : SVDPeripheral.build p2 0 SmartDict.empty = .ok sp) :
    SVDFile.build [p1, p2] =
      .ok { peripherals := SmartDict.empty.setitem (pyStr p2.name) sp,
            base_address := 0 } := by
  have hb : SVDPeripheral.build p1 0 (SmartDict.empty (α := SVDPeripheral))
      = .error (.nonfatal "Periph without base address") := by
    simp [SVDPeripheral.build, h1]
  have hs1 : SVDFile.step SmartDict.empty p1 = .ok SmartDict.empty := by
    unfold SVDFile.step
    rw [hb]
  have hs2 : SVDFile.step SmartDict.empty p2 =
      .ok (SmartDict.empty.setitem (pyStr p2.name) sp) := by
    unfold SVDFile.step
    rw [h2]
  unfold SVDFile.build
  simp only [List.foldlM_cons, List.foldlM_nil, hs1, hs2, except_ok_bind]
  rfl

/-- First C7 peripheral: no `baseAddress`. -/
def c7p1 : PeripheralElem :=
  { name := some "P1", baseAddress := none, derivedFrom := none,
    description := none, registers := [], clusters := [] }

/-- Second C7 peripheral: well-formed, at base 0x100. -/
def c7p2 : PeripheralElem :=
  { name := some "P2", baseAddress := some "0x100", derivedFrom := none,
    description := none, registers := [], clusters := [] }

/-- The model value built for `c7p2`. -/
def c7p2val : SVDPeripheral :=
  { parent_base_address := 0, name := some "P2", description := none,
    base_address := 256, registers := SmartDict.empty,
    clusters := SmartDict.empty }

/-- Witness for C7 at a concrete two-peripheral document. -/
theorem missing_base_address_drops_peripheral_witness :
    SVDFile.build [c7p1, c7p2] =
      .ok { peripherals := SmartDict.empty.setitem "P2" c7p2val,
            base_address := 0 } :=
  missing_base_address_drops_peripheral c7p1 c7p2 c7p2val rfl rfl

/-! ## C8: unresolved `derivedFrom` targets -/

/-- Peripheral `UART1` at base 0x1000 with one register `R`. -/
def c8uart1 : PeripheralElem :=
  { name := some "UART1", baseAddress := some "0x1000", derivedFrom := none,
    description := none, registers := [c1reg], clusters := [] }

/-- Peripheral `X` derived from the name `UART`, which no peripheral
bears. -/
def c8x : PeripheralElem :=
  { name := some "X", baseAddress := some "0x2000",
    derivedFrom := some "UART", description := none, registers := [],
    clusters := [] }

/-- C8 counterexample: `X`'s `derivedFrom` names `UART`, a peripheral
never defined, yet the load succeeds — the SmartDict lookup falls back to
prefix matching and resolves `UART` to `UART1`, whose register subtree `X`
then inherits.  `UART` itself is confirmed absent from the table. -/
theorem derived_from_undefined_name_counterexample :
    ((SVDFile.build [c8uart1, c8x]).toOption.map fun f =>
      f.peripherals.od.map Prod.fst) = some ["UART1", "X"] ∧
    ((SVDFile.build [c8uart1, c8x]).toOption.bind fun f =>
      (f.peripherals.getitem "X").map fun (p : SVDPeripheral) =>
        p.registers.od.map Prod.fst) = some ["R"] ∧
    ((SVDFile.build [c8uart1, c8x]).toOption.bind fun f =>
      assocFind f.peripherals.od "UART") = none := by
  exact ⟨rfl, rfl, rfl⟩

/-- C8 amended: when the `derivedFrom` target cannot be resolved by the
name table at all — no exact, case-insensitive or prefix match — the
lookup raises `KeyError`, which is not an `SVDNonFatalError`, so the
entire load fails and no partial model is returned, regardless of how
many peripherals had already been built or remain. -/
theorem unresolvable_derivation_aborts_load
    (ps rest : List PeripheralElem) (p : PeripheralElem) (f : SVDFile)
    (d b : String) (n : Int)
    (hpre : SVDFile.build ps = .ok f)
    (hb : p.baseAddress = some b) (hn : pyIntBase0 b = some n)
    (hd : p.derivedFrom = some d)
    (hlook : f.peripherals.getitem d = none) :
    SVDFile.build (ps ++ p :: rest) = .error .keyError := by
  unfold SVDFile.build at hpre ⊢
  cases hfold : List.foldlM SVDFile.step SmartDict.empty ps with
  | error e =>
    rw [hfold, except_error_bind] at hpre
    exact absurd hpre (by intro hh; cases hh)
  | ok tbl =>
    rw [hfold, except_ok_bind] at hpre
    cases hpre
    have hbuild : SVDPeripheral.build p 0 tbl = .error .keyError := by
      simp [SVDPeripheral.build, hb, hd, hn, ofOpt, except_ok_bind,
        hlook]
    have hstep : SVDFile.step tbl p = .error .keyError := by
      unfold SVDFile.step
      rw [hbuild]
    rw [foldlM_except_append, hfold, except_ok_bind, List.foldlM_cons,
      hstep, except_error_bind, except_error_bind]

/-- The model value built for `c8uart1`, used by the C8 witness. -/
def c8uart1val : SVDPeripheral :=
  { parent_base_address := 0, name := some "UART1", description := none,
    base_address := 0x1000,
    registers :=
      ⟨[("R", { parent_base_address := 0x1000, name := some "R",
                description := some "", access := "read-write", size := 32,
                offset := 4, fields := SmartDict.empty })], [("r", "R")]⟩,
    clusters := SmartDict.empty }

/-- Peripheral `X` derived from `ZZZ`, which nothing resolves. -/
def c8xzz : PeripheralElem :=
  { c8x with derivedFrom := some "ZZZ" }

/-- Witness for the amended C8 at a concrete document. -/
theorem unresolvable_derivation_aborts_load_witness :
    SVDFile.build [c8uart1, c8xzz] = .error .keyError :=
  unresolvable_derivation_aborts_load [c8uart1] [] c8xzz
    { peripherals := ⟨[("UART1", c8uart1val)], [("uart1", "UART1")]⟩,
      base_address := 0 }
    "ZZZ" "0x2000" 0x2000 rfl rfl rfl rfl rfl

/-! ## C9: independence of `derivedFrom` copies

The claim is about aliasing, so here the Python heap is made explicit: a
store of register objects addressed by index, with peripherals and
clusters holding references into it.  `pickle.loads(pickle.dumps(x))` —
the `copier` in `SVDPeripheral.__init__` — materialises fresh objects, so
the copy allocates new cells at the end of the store holding the same
contents; `refactor_parent` then mutates the referenced cells in place,
exactly as in the source. -/

/-- Placeholder register for out-of-range reads (never reached under the
validity hypotheses). -/
def dummyReg : SVDPeripheralRegister :=
  { parent_base_address := 0, name := none, description := none,
    access := "read-write", size := 32, offset := 0,
    fields := SmartDict.empty }

/-- A cluster as a heap citizen: it owns references to register cells. -/
structure HeapCluster where
  address_offset : Int
  base_address : Int
  registers : List (String × Nat)

/-- A peripheral as a heap citizen. -/
structure HeapPeripheral where
  base_address : Int
  name : Option String
  registers : List (String × Nat)
  clusters : List (String × HeapCluster)

/-- The pickle round-trip over a register table: each referenced cell is
re-materialised as a fresh cell at the end of the store. -/
def copyRegs : List SVDPeripheralRegister → List (String × Nat) →
    List SVDPeripheralRegister × List (String × Nat)
  | st, [] => (st, [])
  | st, (n, r) :: t =>
    let rest := copyRegs (st ++ [st.getD r dummyReg]) t
    (rest.1, (n, st.length) :: rest.2)

/-- The pickle round-trip over a cluster table: each cluster record is
copied by value with a fresh copy of its register cells. -/
def copyClusters : List SVDPeripheralRegister →
    List (String × HeapCluster) →
    List SVDPeripheralRegister × List (String × HeapCluster)
  | st, [] => (st, [])
  | st, (n, c) :: t =>
    let rc := copyRegs st c.registers
    let rest := copyClusters rc.1 t
    (rest.1, (n, { c with registers := rc.2 }) :: rest.2)

/-- `r.refactor_parent(self)` over a register table: mutate each
referenced cell's `parent_base_address` in place. -/
def refactorRegs : List SVDPeripheralRegister → List (String × Nat) →
    Int → List SVDPeripheralRegister
  | st, [], _ => st
  | st, (_, j) :: t, b =>
    refactorRegs
      (st.set j { st.getD j dummyReg with parent_base_address := b }) t b

/-- `c.refactor_parent(self)` over a cluster table: recompute each
cluster's `base_address` from the new parent base and re-stamp its
registers. -/
def refactorClusters : List SVDPeripheralRegister →
    List (String × HeapCluster) → Int →
    List SVDPeripheralRegister × List (String × HeapCluster)
  | st, [], _ => (st, [])
  | st, (n, c) :: t, pb =>
    let ba := pb + c.address_offset
    let st1 := refactorRegs st c.registers ba
    let rest := refactorClusters st1 t pb
    (rest.1, (n, { c with base_address := ba }) :: rest.2)

/-- The `derivedFrom` path of `SVDPeripheral.__init__` on the heap:
pickle-copy the source's register and cluster tables, then
`refactor_parent` the copies to the new base address. -/
def derivePeripheral (st : List SVDPeripheralRegister) (a : HeapPeripheral)
    (newBase : Int) (newName : Option String) :
    List SVDPeripheralRegister × HeapPeripheral :=
  let cr := copyRegs st a.registers
  let cc := copyClusters cr.1 a.clusters
  let st3 := refactorRegs cc.1 cr.2 newBase
  let rc := refactorClusters st3 cc.2 newBase
  (rc.1, { base_address := newBase, name := newName, registers := cr.2,
           clusters := rc.2 })

/-- All register cells referenced from a cluster table. -/
def clustersRegRefs (cls : List (String × HeapCluster)) : List Nat :=
  cls.foldr (fun c acc => c.2.registers.map Prod.snd ++ acc) []

/-- All register cells reachable from a peripheral (directly or through
one of its clusters). -/
def HeapPeripheral.regRefs (p : HeapPeripheral) : List Nat :=
  p.registers.map Prod.snd ++ clustersRegRefs p.clusters

theorem copyRegs_length_le :
    ∀ (refs : List (String × Nat)) (st : List SVDPeripheralRegister),
      st.length ≤ ((copyRegs st refs).1).length := by
  intro refs
  induction refs with
  | nil => intro st; exact Nat.le_refl _
  | cons hd t ih =>
    intro st
    obtain ⟨n, r⟩ := hd
    calc st.length ≤ (st ++ [st.getD r dummyReg]).length := by
          simp [List.length_append]
      _ ≤ _ := ih _

theorem copyRegs_agrees :
    ∀ (refs : List (String × Nat)) (st : List SVDPeripheralRegister)
      (i : Nat), i < st.length → ((copyRegs st refs).1)[i]? = st[i]? := by
  intro refs
  induction refs with
  | nil => intro st i _; rfl
  | cons hd t ih =>
    intro st i h
    obtain ⟨n, r⟩ := hd
    show ((copyRegs (st ++ [st.getD r dummyReg]) t).1)[i]? = st[i]?
    rw [ih _ i (by simp [List.length_append]; omega)]
    exact List.getElem?_append_left h

theorem copyRegs_refs_ge :
    ∀ (refs : List (String × Nat)) (st : List SVDPeripheralRegister)
      (j : Nat), j ∈ ((copyRegs st refs).2).map Prod.snd →
        st.length ≤ j := by
  intro refs
  induction refs with
  | nil => intro st j h; simp [copyRegs] at h
  | cons hd t ih =>
    intro st j h
    obtain ⟨n, r⟩ := hd
    have h' : j = st.length ∨
        j ∈ ((copyRegs (st ++ [st.getD r dummyReg]) t).2).map Prod.snd := by
      simpa [copyRegs] using h
    rcases h' with h' | h'
    · exact h' ▸ Nat.le_refl _
    · have := ih _ j h'
      simp [List.length_append] at this
      omega

theorem copyClusters_length_le :
    ∀ (cls : List (String × HeapCluster)) (st : List SVDPeripheralRegister),
      st.length ≤ ((copyClusters st cls).1).length := by
  intro cls
  induction cls with
  | nil => intro st; exact Nat.le_refl _
  | cons hd t ih =>
    intro st
    obtain ⟨n, c⟩ := hd
    calc st.length ≤ ((copyRegs st c.registers).1).length :=
          copyRegs_length_le _ _
      _ ≤ _ := ih _

theorem copyClusters_agrees :
    ∀ (cls : List (String × HeapCluster)) (st : List SVDPeripheralRegister)
      (i : Nat), i < st.length →
        ((copyClusters st cls).1)[i]? = st[i]? := by
  intro cls
  induction cls with
  | nil => intro st i _; rfl
  | cons hd t ih =>
    intro st i h
    obtain ⟨n, c⟩ := hd
    show ((copyClusters (copyRegs st c.registers).1 t).1)[i]? = st[i]?
    rw [ih _ i (Nat.lt_of_lt_of_le h (copyRegs_length_le _ _))]
    exact copyRegs_agrees _ _ _ h

theorem copyClusters_refs_ge :
    ∀ (cls : List (String × HeapCluster)) (st : List SVDPeripheralRegister)
      (j : Nat), j ∈ clustersRegRefs ((copyClusters st cls).2) →
        st.length ≤ j := by
  intro cls
  induction cls with
  | nil => intro st j h; simp [copyClusters, clustersRegRefs] at h
  | cons hd t ih =>
    intro st j h
    obtain ⟨n, c⟩ := hd
    have h' : j ∈ ((copyRegs st c.registers).2).map Prod.snd ∨
        j ∈ clustersRegRefs ((copyClusters (copyRegs st c.registers).1 t).2) := by
      simpa [copyClusters, clustersRegRefs] using h
    rcases h' with h' | h'
    · exact copyRegs_refs_ge _ _ _ h'
    · exact Nat.le_trans (copyRegs_length_le _ _) (ih _ j h')

theorem refactorRegs_agrees :
    ∀ (refs : List (String × Nat)) (st : List SVDPeripheralRegister)
      (b : Int) (N i : Nat),
      (∀ j ∈ refs.map Prod.snd, N ≤ j) → i < N →
        (refactorRegs st refs b)[i]? = st[i]? := by
  intro refs
  induction refs with
  | nil => intro st b N i _ _; rfl
  | cons hd t ih =>
    intro st b N i hge hi
    obtain ⟨n, j⟩ := hd
    have hj : N ≤ j := hge j (by simp)
    show (refactorRegs (st.set j _) t b)[i]? = st[i]?
    rw [ih _ b N i (fun x hx => hge x (by simp [hx])) hi]
    exact List.getElem?_set_ne (by omega)

theorem refactorClusters_agrees :
    ∀ (cls : List (String × HeapCluster)) (st : List SVDPeripheralRegister)
      (pb : Int) (N i : Nat),
      (∀ j ∈ clustersRegRefs cls, N ≤ j) → i < N →
        ((refactorClusters st cls pb).1)[i]? = st[i]? := by
  intro cls
  induction cls with
  | nil => intro st pb N i _ _; rfl
  | cons hd t ih =>
    intro st pb N i hge hi
    obtain ⟨n, c⟩ := hd
    show ((refactorClusters (refactorRegs st c.registers _) t pb).1)[i]?
      = st[i]?
    rw [ih _ pb N i (fun x hx => hge x (List.mem_append.mpr (Or.inr hx))) hi]
    exact refactorRegs_agrees _ _ _ N i
      (fun x hx => hge x (List.mem_append.mpr (Or.inl hx))) hi

theorem refactorClusters_refs_eq :
    ∀ (cls : List (String × HeapCluster)) (st : List SVDPeripheralRegister)
      (pb : Int),
      clustersRegRefs ((refactorClusters st cls pb).2) =
        clustersRegRefs cls := by
  intro cls
  induction cls with
  | nil => intro st pb; rfl
  | cons hd t ih =>
    intro st pb
    obtain ⟨n, c⟩ := hd
    have h1 : clustersRegRefs ((refactorClusters st ((n, c) :: t) pb).2) =
        c.registers.map Prod.snd ++
          clustersRegRefs ((refactorClusters
            (refactorRegs st c.registers (pb + c.address_offset)) t pb).2) :=
      rfl
    rw [h1, ih]
    rfl

/-- C9: derivation is by value.  Starting from any store in which
peripheral `A`'s register references are valid, deriving `B` from `A`
(pickle copy plus rebase) leaves every register reachable from `A`
unchanged, and subsequently mutating any register reached through `B` —
with an arbitrary in-place update `g`, e.g. rebasing its stored base
address — still leaves every register of `A` exactly as it was in the
original store. -/
theorem derived_registers_independent
    (st : List SVDPeripheralRegister) (a : HeapPeripheral)
    (nb : Int) (nn : Option String)
    (g : SVDPeripheralRegister → SVDPeripheralRegister) (i j : Nat)
    (hvalid : ∀ r ∈ a.regRefs, r < st.length)
    (hi : i ∈ a.regRefs)
    (hj : j ∈ (derivePeripheral st a nb nn).2.regRefs) :
    ((derivePeripheral st a nb nn).1)[i]? = st[i]? ∧
      (((derivePeripheral st a nb nn).1).set j
          (g (((derivePeripheral st a nb nn).1).getD j dummyReg)))[i]? =
        st[i]? := by
  have hiN : i < st.length := hvalid i hi
  have hagree : ((derivePeripheral st a nb nn).1)[i]? = st[i]? := by
    show ((refactorClusters (refactorRegs (copyClusters (copyRegs st
      a.registers).1 a.clusters).1 (copyRegs st a.registers).2 nb)
      (copyClusters (copyRegs st a.registers).1 a.clusters).2 nb).1)[i]?
      = st[i]?
    rw [refactorClusters_agrees _ _ _ st.length i
        (fun x hx => Nat.le_trans (copyRegs_length_le _ _)
          (copyClusters_refs_ge _ _ _ hx)) hiN,
      refactorRegs_agrees _ _ _ st.length i
        (fun x hx => copyRegs_refs_ge _ _ _ hx) hiN,
      copyClusters_agrees _ _ _
        (Nat.lt_of_lt_of_le hiN (copyRegs_length_le _ _)),
      copyRegs_agrees _ _ _ hiN]
  refine ⟨hagree, ?_⟩
  have hjN : st.length ≤ j := by
    have hj' : j ∈ ((copyRegs st a.registers).2).map Prod.snd ∨
        j ∈ clustersRegRefs
          ((refactorClusters (refactorRegs (copyClusters (copyRegs st
            a.registers).1 a.clusters).1 (copyRegs st a.registers).2 nb)
            (copyClusters (copyRegs st a.registers).1 a.clusters).2
            nb).2) := by
      simpa [derivePeripheral, HeapPeripheral.regRefs] using hj
    rcases hj' with hj' | hj'
    · exact copyRegs_refs_ge _ _ _ hj'
    · rw [refactorClusters_refs_eq] at hj'
      exact Nat.le_trans (copyRegs_length_le _ _)
        (copyClusters_refs_ge _ _ _ hj')
  rw [List.getElem?_set_ne (by omega)]
  exact hagree

/-- Source peripheral for the C9 witness: base 0x100, one direct register
and one cluster register, both referencing cell 0. -/
def c9src : HeapPeripheral :=
  { base_address := 0x100, name := some "A", registers := [("R", 0)],
    clusters := [("C", { address_offset := 0x10, base_address := 0x110,
                         registers := [("CR", 0)] })] }

/-- Witness for C9: derive from `c9src` over the one-cell store `[dummyReg]`
and mutate the copy at cell 1 through `B`; cell 0 as seen from `A` is
unchanged. -/
theorem derived_registers_independent_witness :
    ((derivePeripheral [dummyReg] c9src 0x200 (some "B")).1)[0]? =
        some dummyReg ∧
      (((derivePeripheral [dummyReg] c9src 0x200 (some "B")).1).set 1
          ((fun r => { r with offset := 99 })
            (((derivePeripheral [dummyReg] c9src 0x200 (some "B")).1).getD
              1 dummyReg)))[0]? = some dummyReg :=
  derived_registers_independent [dummyReg] c9src 0x200 (some "B")
    (fun r => { r with offset := 99 }) 0 1
    (by decide) (by decide) (by decide)

/-! ## C10: nested cluster elements are ignored -/

/-- Every cluster in the table has an empty nested-clusters table. -/
def NoNestedClusters (t : SmartDict SVDRegisterCluster) : Prop :=
  ∀ x ∈ t.od, x.2.clusters.od = []

theorem shift_clusters (c : SVDRegisterCluster) (nm : String) (off : Int) :
    (c.shift nm off).clusters = c.clusters := by
  cases c
  rfl

theorem build_cluster_clusters_empty (e : ClusterElem) (pb : Int)
    (pn : Option String) (c : SVDRegisterCluster)
    (h : SVDRegisterCluster.build e pb pn = .ok c) :
    c.clusters.od = [] := by
  unfold SVDRegisterCluster.build at h
  simp only [bind, Except.bind] at h
  split at h
  · cases h
  · split at h
    · cases h
    · cases h
      rfl

theorem add_cluster_no_nested (pb : Int) (pn : Option String)
    (t : SmartDict SVDRegisterCluster) (node : ClusterElem)
    (t' : SmartDict SVDRegisterCluster) (hP : NoNestedClusters t)
    (h : add_cluster pb pn t node = .ok t') : NoNestedClusters t' := by
  unfold add_cluster at h
  simp only [bind, Except.bind] at h
  split at h
  · -- dim branch
    split at h
    · cases h
    · split at h
      · cases h
      · split at h
        · cases h
        · rename_i st hfold
          cases h
          refine foldlM_except_ind _
            (fun (s : SmartDict SVDRegisterCluster × Int) =>
              NoNestedClusters s.1) ?_ _ _ st hP hfold
          intro s a s' hs hstep
          split at hstep
          · cases hstep
          · split at hstep
            · cases hstep
            · rename_i nm hnm
              split at hstep
              · cases hstep
              · rename_i c hbc
                cases hstep
                intro x hx
                rcases mem_assocSet hx with hx' | hx'
                · rw [hx']
                  show ((c.shift nm s.2).clusters).od = []
                  rw [shift_clusters]
                  exact build_cluster_clusters_empty _ _ _ _ hbc
                · exact hs x hx'
  · -- plain branch
    split at h
    · cases h
      exact hP
    · cases h
    · rename_i c hbc
      split at h
      · cases h
      · rename_i ns hns
        cases h
        intro x hx
        rcases mem_assocSet hx with hx' | hx'
        · rw [hx']
          exact build_cluster_clusters_empty _ _ _ _ hbc
        · exact hP x hx'


theorem getitem_mem {α : Type} (d : SmartDict α) (k : String) (v : α)
    (h : d.getitem k = some v) : ∃ k', (k', v) ∈ d.od := by
  unfold SmartDict.getitem at h
  by_cases h1 : containsKey d.od k
  · rw [if_pos h1] at h
    exact ⟨k, assocFind_mem h⟩
  · rw [if_neg h1] at h
    by_cases h2 : containsKey d.casemap (strLower k)
    · rw [if_pos h2] at h
      cases hcm : assocFind d.casemap (strLower k) with
      | none => rw [hcm] at h; cases h
      | some odKey => rw [hcm] at h; exact ⟨odKey, assocFind_mem h⟩
    · rw [if_neg h2] at h
      cases hpm : d.pfxMatch k with
      | none => rw [hpm] at h; cases h
      | some odKey => rw [hpm] at h; exact ⟨odKey, assocFind_mem h⟩

theorem refactor_parent_clusters (c : SVDRegisterCluster) (pb : Int)
    (pn : Option String) :
    (c.refactor_parent pb pn).clusters = c.clusters := by
  cases c
  rfl

theorem build_periph_no_nested (e : PeripheralElem) (fb : Int)
    (fp : SmartDict SVDPeripheral) (sp : SVDPeripheral)
    (hfp : ∀ x ∈ fp.od, NoNestedClusters x.2.clusters)
    (h : SVDPeripheral.build e fb fp = .ok sp) :
    NoNestedClusters sp.clusters := by
  unfold SVDPeripheral.build at h
  simp only [bind, Except.bind] at h
  split at h
  · cases h
  · split at h
    · cases h
    · split at h
      · -- derived branch
        split at h
        · cases h
        · rename_i basep hget
          cases h
          obtain ⟨k', hk'⟩ := getitem_mem fp _ basep hget
          have hbase := hfp (k', basep) hk'
          intro x hx
          rcases List.mem_map.mp hx with ⟨y, hy, hxy⟩
          rw [← hxy]
          show ((y.2.refactor_parent _ _).clusters).od = []
          rw [refactor_parent_clusters]
          exact hbase y hy
      · -- own-children branch
        split at h
        · cases h
        · split at h
          · cases h
          · rename_i cs hcls
            cases h
            exact foldlM_except_ind _ NoNestedClusters
              (fun s a s' hs hstep =>
                add_cluster_no_nested _ _ s a s' hs hstep)
              _ SmartDict.empty cs (fun x hx => by cases hx) hcls


theorem built_cluster_nested_table_empty (ps : List PeripheralElem)
    (f : SVDFile) (pn : String) (p : SVDPeripheral) (cn : String)
    (c : SVDRegisterCluster)
    (h : SVDFile.build ps = .ok f)
    (hp : (pn, p) ∈ f.peripherals.od)
    (hc : (cn, c) ∈ p.clusters.od) :
    c.clusters.od = [] ∧
      ∀ (e : ClusterElem) (pb : Int) (pnm : Option String)
        (cs : List ClusterElem),
        SVDRegisterCluster.build (e.setClusters cs) pb pnm =
          SVDRegisterCluster.build e pb pnm := by
  constructor
  · unfold SVDFile.build at h
    simp only [bind, Except.bind] at h
    split at h
    · cases h
    · rename_i tbl hfold
      cases h
      have hall : ∀ x ∈ tbl.od, NoNestedClusters x.2.clusters := by
        refine foldlM_except_ind _
          (fun (s : SmartDict SVDPeripheral) =>
            ∀ x ∈ s.od, NoNestedClusters x.2.clusters)
          ?_ _ SmartDict.empty tbl (fun x hx => by cases hx) hfold
        intro s a s' hs hstep
        unfold SVDFile.step at hstep
        split at hstep
        · rename_i sp hb
          cases hstep
          intro x hx
          rcases mem_assocSet hx with hx' | hx'
          · rw [hx']
            exact build_periph_no_nested a 0 s sp hs hb
          · exact hs x hx'
        · cases hstep
          exact hs
        · cases hstep
      exact hall (pn, p) hp (cn, c) hc
  · intro e pb pnm cs
    cases e
    rfl

def c10nested : ClusterElem :=
  .mk (some "N") none none none (some "0x20") none [] []

def c10cl : ClusterElem :=
  .mk (some "C") none none none (some "0x0") none [] [c10nested]

def c10periph : PeripheralElem :=
  { name := some "P", baseAddress := some "0x0", derivedFrom := none,
    description := none, registers := [], clusters := [c10cl] }

def c10clval : SVDRegisterCluster :=
  .mk 0 (some "P") 0 0 "" (some "C") SmartDict.empty SmartDict.empty

def c10pval : SVDPeripheral :=
  { parent_base_address := 0, name := some "P", description := none,
    base_address := 0,
    registers := SmartDict.empty,
    clusters := ⟨[("C", c10clval)], [("c", "C")]⟩ }

theorem built_cluster_nested_table_empty_witness :
    c10clval.clusters.od = [] ∧
      SVDRegisterCluster.build (ClusterElem.setClusters c10cl [c10cl])
          0 none =
        SVDRegisterCluster.build c10cl 0 none :=
  have hmain := built_cluster_nested_table_empty [c10periph]
    { peripherals := ⟨[("P", c10pval)], [("p", "P")]⟩, base_address := 0 }
    "P" c10pval "C" c10clval rfl (List.Mem.head _) (List.Mem.head _)
  ⟨hmain.1, hmain.2 c10cl 0 none [c10cl]⟩

end Svd
